import Mathlib

/-!
Verification of the pyvvisf binding layer (`src/pyvvisf/vvisf_bindings.cpp`).

The development shallowly embeds the binding code: each C++ wrapper that the
claims are about becomes a Lean function over explicit state / oracle records
standing for the OpenGL driver and the external VVISF library.  C++ `double`
fields (`VVGL::Size`) are modelled by `Rat`, GL handles (`GLuint`) by `Nat`,
GL error codes and branch outcomes by explicit `Bool` fields of a driver
record, and thrown C++ exceptions by `Except` values whose constructors match
the exception classes registered with pybind11 (`ISFParseError`,
`ShaderCompilationError`, `ShaderRenderingError`, plus `std::invalid_argument`
and `std::runtime_error`, which pybind11 maps to distinct Python exceptions).
-/

/-! ## Error taxonomy of the binding layer

`vvisf_bindings.cpp` registers exactly four custom exception classes
(`VVISFError`, `ISFParseError`, `ShaderCompilationError`,
`ShaderRenderingError`); in addition the wrappers throw
`std::invalid_argument` and `std::runtime_error`.  `PyErr` mirrors the
thrown exceptions together with their constructor arguments. -/

inductive PyErrKind where
  | isfParse
  | shaderCompilation
  | shaderRendering
  | invalidArgument
  | runtimeError
  deriving DecidableEq, Repr

inductive PyErr where
  | isfParse (message details : String)
  | shaderCompilation (message shaderType details : String)
  | shaderRendering (message details : String)
  | invalidArgument (message : String)
  | runtimeError (message : String)
  deriving DecidableEq, Repr

def PyErr.kind : PyErr → PyErrKind
  | .isfParse _ _ => .isfParse
  | .shaderCompilation _ _ _ => .shaderCompilation
  | .shaderRendering _ _ => .shaderRendering
  | .invalidArgument _ => .invalidArgument
  | .runtimeError _ => .runtimeError

/-- The shader-stage tag carried by a surfaced `ShaderCompilationError`
(`shader_type` argument of the C++ constructor); `none` for other kinds. -/
def PyErr.shaderStage : PyErr → Option String
  | .shaderCompilation _ stage _ => some stage
  | _ => none

/-- Message assembled by the C++ `ISFParseError` constructor:
`message_ = details.empty() ? message : message + "\nDetails: " + details`. -/
def ISFParseError_message (message details : String) : String :=
  if details = "" then message else message ++ "\nDetails: " ++ details

/-- Message assembled by the C++ `ShaderCompilationError` constructor:
starts from `message`, appends `"\nShader type: " + shader_type` when the
stage is nonempty, then `"\nDetails: " + details` when nonempty. -/
def ShaderCompilationError_message (message shaderType details : String) : String :=
  (if shaderType = "" then message else message ++ "\nShader type: " ++ shaderType)
    ++ (if details = "" then "" else "\nDetails: " ++ details)

/-! ## VVISF error values crossing into the wrappers

`VVISF::ISFErr` as consumed by the wrappers: an error-type enum plus the
`general` / `specific` strings and the `details` string map.  The enum values
named in the wrappers' `switch` statements are modelled by constructors; all
remaining enum values behave identically under the `default` branch and are
collapsed into `other`. -/

inductive ISFErrType where
  | MalformedJSON
  | ErrorParsingFS
  | ErrorCompilingGLSL
  | MissingResource
  | ErrorLoading
  | other
  deriving DecidableEq, Repr

structure ISFErr where
  type : ISFErrType
  general : String
  specific : String
  details : List (String × String)
  deriving DecidableEq, Repr

/-- Modelled from the spec: `VVISF::ISFErr::getTypeString` lives in the
external VVISF-GL library (`external/VVISF-GL`), which is not under `src/`;
the spec's error surface names the subkinds, so the method is modelled as the
subkind's name.  Only its presence inside the details text matters for the
claims, never its exact wording. -/
def ISFErr_getTypeString : ISFErrType → String
  | .MalformedJSON => "MalformedJSON"
  | .ErrorParsingFS => "ErrorParsingFS"
  | .ErrorCompilingGLSL => "ErrorCompilingGLSL"
  | .MissingResource => "MissingResource"
  | .ErrorLoading => "ErrorLoading"
  | .other => "Unknown"

/-- `"  " + key + ": " + value + "\n"` lines of the details dictionary,
as produced by the loop in `extract_isf_error_details`. -/
def detailLines : List (String × String) → String
  | [] => ""
  | (k, v) :: rest => "  " ++ k ++ ": " ++ v ++ "\n" ++ detailLines rest

/-- `extract_isf_error_details` (vvisf_bindings.cpp, lines 121-137): renders
the error type, the `general` and `specific` strings and the details
dictionary into one human-readable block. -/
def extract_isf_error_details (err : ISFErr) : String :=
  "Error type: " ++ ISFErr_getTypeString err.type ++ "\n"
    ++ "General: " ++ err.general ++ "\n"
    ++ "Specific: " ++ err.specific ++ "\n"
    ++ (if err.details.isEmpty then "" else "Details:\n" ++ detailLines err.details)

/-! ## Substring search (models `std::string::find(...) != npos`) -/

/-- `leadMatch needle hay` is true when `needle` is an initial segment of
`hay`; models a successful match of `std::string::find` at one position. -/
def leadMatch : List Char → List Char → Bool
  | [], _ => true
  | _ :: _, [] => false
  | a :: as, b :: bs => a == b && leadMatch as bs

/-- `hasSubList needle hay`: `needle` occurs contiguously inside `hay`;
models `hay.find(needle) != std::string::npos`. -/
def hasSubList (needle : List Char) : List Char → Bool
  | [] => needle.isEmpty
  | c :: rest => leadMatch needle (c :: rest) || hasSubList needle rest

def strContainsSubstr (hay needle : String) : Bool :=
  hasSubList needle.data hay.data

/-- The message-content heuristic repeated in every document-creation wrapper:
`err.specific.find("invalid") != npos || err.specific.find("type") != npos ||
err.general.find("input") != npos`. -/
def invalidInputHeuristic (err : ISFErr) : Bool :=
  strContainsSubstr err.specific "invalid" || strContainsSubstr err.specific "type"
    || strContainsSubstr err.general "input"

/-! ## Error classification of failing Document construction

`CreateISFDocRefWith_SafeWrapper` (lines 1657-1711) and
`CreateISFDocRefWith_Wrapper` (lines 140-182) share one `switch` over
`err.type`; `CreateISFDocRef_SafeWrapper` (lines 1713-1766) and
`CreateISFDocRef_Wrapper` (lines 184-223) use the same `switch` with the file
path spliced into the messages.  Each function below is the exception thrown
for a caught `VVISF::ISFErr`. -/

def CreateISFDocRefWith_classifyErr (imports_dir : String) (err : ISFErr) : PyErr :=
  let details := extract_isf_error_details err
  match err.type with
  | .MalformedJSON =>
    if invalidInputHeuristic err then
      .shaderCompilation ("Invalid input type in shader file: " ++ imports_dir) "input" details
    else
      .isfParse ("Malformed JSON in ISF file: " ++ imports_dir) details
  | .ErrorParsingFS => .shaderCompilation "Error parsing fragment shader" "fragment" details
  | .ErrorCompilingGLSL => .shaderCompilation "GLSL compilation error" "unknown" details
  | .MissingResource => .isfParse ("Missing resource: " ++ err.specific) details
  | .ErrorLoading => .isfParse ("Error loading resource: " ++ err.specific) details
  | .other =>
    if invalidInputHeuristic err then
      .shaderCompilation ("Invalid input type in shader file: " ++ imports_dir) "input" details
    else
      .isfParse ("ISF error: " ++ err.general) details

def CreateISFDocRef_classifyErr (path : String) (err : ISFErr) : PyErr :=
  let details := extract_isf_error_details err
  match err.type with
  | .MalformedJSON =>
    if invalidInputHeuristic err then
      .shaderCompilation ("Invalid input type in shader file: " ++ path) "input" details
    else
      .isfParse ("Malformed JSON in ISF file: " ++ path) details
  | .ErrorParsingFS => .shaderCompilation ("Error parsing fragment shader in file: " ++ path) "fragment" details
  | .ErrorCompilingGLSL => .shaderCompilation ("GLSL compilation error in file: " ++ path) "unknown" details
  | .MissingResource => .isfParse ("Missing resource: " ++ path) details
  | .ErrorLoading => .isfParse ("Error loading file: " ++ path) details
  | .other =>
    if invalidInputHeuristic err then
      .shaderCompilation ("Invalid input type in shader file: " ++ path) "input" details
    else
      .isfParse ("ISF error in file " ++ path ++ ": " ++ err.general) details

/-- The error kind the document-creation wrappers actually surface, as a
function of the error type and of the message-content heuristic.  This is the
claim-side description the amended C1 compares the code against. -/
def docCreationExpectedKind (heuristic : Bool) : ISFErrType → PyErrKind
  | .MalformedJSON => if heuristic then .shaderCompilation else .isfParse
  | .ErrorParsingFS => .shaderCompilation
  | .ErrorCompilingGLSL => .shaderCompilation
  | .MissingResource => .isfParse
  | .ErrorLoading => .isfParse
  | .other => if heuristic then .shaderCompilation else .isfParse

/-! ## `ISFScene_useDoc_Wrapper` error surface (lines 254-272)

On a caught `VVISF::ISFErr` the wrapper throws a `ShaderCompilationError` for
the two shader error types and a `ShaderRenderingError` for everything else. -/

def ISFScene_useDoc_classifyErr (err : ISFErr) : PyErr :=
  let details := extract_isf_error_details err
  match err.type with
  | .ErrorCompilingGLSL => .shaderCompilation "GLSL compilation error" "unknown" details
  | .ErrorParsingFS => .shaderCompilation "Error parsing fragment shader" "fragment" details
  | _ => .shaderRendering ("ISF error: " ++ err.general) details

/-! ## `set_value_for_input_named` binding (lines 1330-1336)

The lambda bound as `set_value_for_input_named` calls
`VVISF::ISFScene::setValueForInputNamed` (external library, body not under
`src/`) and converts every thrown `std::exception` into a
`ShaderRenderingError`.  The inner call is therefore modelled by its outcome
alone: `Except String Unit`, an `error` carrying the inner exception's
`what()` text. -/

def set_value_for_input_named_wrapper (name : String) (inner : Except String Unit) :
    Except PyErr Unit :=
  match inner with
  | .ok _ => .ok ()
  | .error m =>
    .error (.shaderRendering ("Failed to set input \x27" ++ name ++ "\x27: " ++ m) "")

/-! ## `pyvvisf_create_and_render_a_buffer` (lines 1020-1058)

`VVGL::Size` holds two C++ doubles, modelled by `Rat`.  The operations the
helper performs against the context, the scene and the pool are recorded in
an effect trace; the external outcomes it branches on are oracle fields. -/

structure RSize where
  width : Rat
  height : Rat
  deriving DecidableEq, Repr

structure RenderDriver where
  contextOk : Bool
  hasDoc : Bool
  programReady : Bool
  renderOk : Bool
  deriving DecidableEq, Repr

inductive REffect where
  | ensureContext
  | render (width height time : Rat)
  deriving DecidableEq, Repr

def pyvvisf_create_and_render_a_buffer (drv : RenderDriver) (size : RSize)
    (render_time : Rat) : Except PyErr Unit × List REffect :=
  if size.width ≤ 0 ∨ size.height ≤ 0 then
    (.error (.invalidArgument ("Invalid size: width and height must be positive. Got: "
      ++ toString size.width ++ "x" ++ toString size.height)), [])
  else if drv.contextOk = false then
    (.error (.runtimeError "Failed to make OpenGL context current for rendering"),
      [.ensureContext])
  else if drv.hasDoc = false then
    (.error (.runtimeError "ISFScene has no document loaded. Call use_doc() first."),
      [.ensureContext])
  else
    let tr := [REffect.ensureContext, REffect.render size.width size.height render_time]
    if drv.programReady = false then
      (.error (.shaderCompilation "Shader compilation failed" "unknown"
        "Program is not ready after compilation attempt"), tr)
    else if drv.renderOk = false then
      (.error (.runtimeError "Rendering failed: createAndRenderABuffer returned null buffer"), tr)
    else
      (.ok (), tr)

/-! ## `safeDeleteShader` / `safeDeleteProgram` (lines 1627-1639)

GL object names are `Nat`; the driver's object tables are lists of live
names, and every `glDeleteShader` / `glDeleteProgram` call is recorded. -/

structure GLObjState where
  liveShaders : List Nat
  livePrograms : List Nat
  shaderDeletions : List Nat
  programDeletions : List Nat
  deriving DecidableEq, Repr

def glIsShader (st : GLObjState) (s : Nat) : Bool := st.liveShaders.contains s

def glIsProgram (st : GLObjState) (p : Nat) : Bool := st.livePrograms.contains p

def glDeleteShader (st : GLObjState) (s : Nat) : GLObjState :=
  { st with liveShaders := st.liveShaders.filter (fun x => x != s),
            shaderDeletions := st.shaderDeletions ++ [s] }

def glDeleteProgram (st : GLObjState) (p : Nat) : GLObjState :=
  { st with livePrograms := st.livePrograms.filter (fun x => x != p),
            programDeletions := st.programDeletions ++ [p] }

/-- `safeDeleteShader(GLuint& shader)`: the by-reference handle is modelled by
returning its updated value alongside the driver state. -/
def safeDeleteShader (shader : Nat) (st : GLObjState) : Nat × GLObjState :=
  if shader ≠ 0 ∧ glIsShader st shader = true then (0, glDeleteShader st shader)
  else (shader, st)

def safeDeleteProgram (program : Nat) (st : GLObjState) : Nat × GLObjState :=
  if program ≠ 0 ∧ glIsProgram st program = true then (0, glDeleteProgram st program)
  else (program, st)

/-! ## Shader source generation (Document model)

`ISFDoc::generateShaderSource` is bound at line 1310 of
`vvisf_bindings.cpp`, but its body lives in the external VVISF-GL library
(`external/VVISF-GL/VVISF/src/ISFDoc.cpp`), which is not under `src/`; the
Document model and the generator are therefore modelled from the spec. -/

inductive ISFValType where
  | none
  | event
  | bool
  | long
  | float
  | point2D
  | color
  | cube
  | image
  | audio
  | audioFFT
  deriving DecidableEq, Repr

structure ISFInputModel where
  name : String
  type : ISFValType
  label : String
  description : String
  deriving DecidableEq, Repr

structure ISFPassModel where
  name : String
  persistent : Bool
  floatFlag : Bool
  deriving DecidableEq, Repr

structure ISFDocModel where
  path : String
  docName : String
  docDescription : String
  credit : String
  fragBody : String
  vertBody : String
  inputs : List ISFInputModel
  passes : List ISFPassModel
  deriving DecidableEq, Repr

/-- Modelled from the spec: the GLSL uniform declaration generated for one
declared Input ("uniform declarations per Input"). -/
def uniformDeclForInput (i : ISFInputModel) : String :=
  match i.type with
  | .bool => "uniform bool " ++ i.name ++ ";\n"
  | .event => "uniform bool " ++ i.name ++ ";\n"
  | .long => "uniform int " ++ i.name ++ ";\n"
  | .float => "uniform float " ++ i.name ++ ";\n"
  | .point2D => "uniform vec2 " ++ i.name ++ ";\n"
  | .color => "uniform vec4 " ++ i.name ++ ";\n"
  | .cube => "uniform samplerCube " ++ i.name ++ ";\n"
  | .image => "uniform sampler2D " ++ i.name ++ ";\n"
  | .audio => "uniform sampler2D " ++ i.name ++ ";\n"
  | .audioFFT => "uniform sampler2D " ++ i.name ++ ";\n"
  | .none => ""

/-- Modelled from the spec: the per-pass sampler declaration generated for
one declared render pass ("per-pass sampler declarations"). -/
def samplerDeclForPass (p : ISFPassModel) : String :=
  if p.name = "" then "" else "uniform sampler2D " ++ p.name ++ ";\n"

def concatMapStr (f : α → String) : List α → String
  | [] => ""
  | a :: rest => f a ++ concatMapStr f rest

/-- Modelled from the spec: `ISFDoc::generateShaderSource` (external
VVISF-GL, not under `src/`) "combines the user's fragment/vertex body with
generated boilerplate (uniform declarations per Input, per-pass sampler
declarations, texture-coordinate varyings) into final compilable GLSL".
Returns (vertex source, fragment source). -/
def generateShaderSource (d : ISFDocModel) : String × String :=
  let decls := concatMapStr uniformDeclForInput d.inputs
    ++ concatMapStr samplerDeclForPass d.passes
  let varyings := "varying vec2 isf_FragNormCoord;\n"
  (decls ++ varyings ++ d.vertBody, decls ++ varyings ++ d.fragBody)

/-! ## `glbuffer_to_pil_image` (lines 706-891)

The GL context is modelled by per-target texture bindings, the framebuffer
binding and the list of live framebuffer objects; every GL call the function
issues is recorded in an effect trace.  Driver outcomes the code branches on
(`glGetError` after each call, `glIsTexture`, texture dimensions, readback
content, framebuffer generation/completeness, the PIL import) are oracle
fields.  GL semantics: a bind whose `glGetError` reports failure leaves the
binding unchanged. -/

inductive BufTarget where
  | target2D
  | targetRB
  | targetCube
  | raw (n : Nat)
  deriving DecidableEq, Repr

inductive GLTexTarget where
  | g2D
  | gRect
  | gCube
  | gRaw (n : Nat)
  deriving DecidableEq, Repr

/-- The target-selection chain at lines 737-747: `Target_2D` →
`GL_TEXTURE_2D`, `Target_RB` → `GL_TEXTURE_RECTANGLE`, `Target_Cube` →
`GL_TEXTURE_CUBE_MAP`, anything else is used as a raw GL constant. -/
def textureTargetFor : BufTarget → GLTexTarget
  | .target2D => .g2D
  | .targetRB => .gRect
  | .targetCube => .gCube
  | .raw n => .gRaw n

/-- The fields of `VVGL::GLBuffer` that `glbuffer_to_pil_image` reads:
`name` (GL texture handle), `desc.target`, `flipped`. -/
structure GLBufferModel where
  name : Nat
  target : BufTarget
  flipped : Bool
  deriving DecidableEq, Repr

structure GLState where
  texBinding : GLTexTarget → Nat
  fboBinding : Nat
  liveFBOs : List Nat

def setTex (st : GLState) (t : GLTexTarget) (v : Nat) : GLState :=
  { st with texBinding := fun u => if u = t then v else st.texBinding u }

inductive GLEffect where
  | ensureContext
  | bindTexture (t : GLTexTarget) (name : Nat)
  | getTexImage (t : GLTexTarget)
  | genFramebuffer (n : Nat)
  | bindFramebuffer (n : Nat)
  | framebufferTexture2D (t : GLTexTarget) (name : Nat)
  | readPixels (w h : Int)
  | deleteFramebuffer (n : Nat)
  deriving DecidableEq, Repr

structure ToPILDriver where
  contextOk : Bool
  bindTexOk : Bool
  isTextureOk : Bool
  texWidth : Int
  texHeight : Int
  directReadOk : Bool
  texContent : List Nat
  fbName : Nat
  bindFbOk : Bool
  fbComplete : Bool
  readPixelsOk : Bool
  fbContent : List Nat
  pilOk : Bool
  deriving Repr

/-- `width`, `height`, flat RGBA byte data handed to `PIL.Image.frombytes`. -/
structure PILImage where
  mode : String
  width : Int
  height : Int
  data : List Nat
  deriving DecidableEq, Repr

/-- The C++ code allocates `std::vector<unsigned char> pixels(width*height*4)`
and GL fills it in place: the handed byte array always has exactly
`width*height*4` entries, padded with the vector's zero-initialised bytes if
the oracle supplies fewer. -/
def padTo (n : Nat) (l : List Nat) : List Nat :=
  (l ++ List.replicate n 0).take n

/-- Final step of `glbuffer_to_pil_image` (lines 871-891): build the PIL
image from the pixel data, or fail if the PIL import/constructor throws. -/
def finishPIL (drv : ToPILDriver) (pixels : List Nat) (st : GLState)
    (tr : List GLEffect) : Except PyErr PILImage × GLState × List GLEffect :=
  if drv.pilOk then
    (.ok { mode := "RGBA", width := drv.texWidth, height := drv.texHeight, data := pixels },
      st, tr)
  else
    (.error (.runtimeError "Failed to create PIL Image"), st, tr)

/-- Framebuffer-fallback path of `glbuffer_to_pil_image` (lines 808-860):
create a framebuffer, bind it, attach the texture, read the pixels back, then
rebind the previously bound framebuffer and delete the created one.  Returns
the pixel bytes; the caller performs the final texture-binding restore. -/
def fbReadStage (drv : ToPILDriver) (b : GLBufferModel) (tgt : GLTexTarget) (n : Nat)
    (savedFB : Nat) (st1 : GLState) (tr : List GLEffect) :
    Except PyErr (List Nat) × GLState × List GLEffect :=
  if drv.fbName = 0 then
    (.error (.runtimeError "Failed to generate framebuffer"), st1,
      tr ++ [GLEffect.genFramebuffer 0])
  else
    let fb := drv.fbName
    let st2 := { st1 with liveFBOs := st1.liveFBOs ++ [fb] }
    let tr2 := tr ++ [GLEffect.genFramebuffer fb, GLEffect.bindFramebuffer fb]
    if drv.bindFbOk = false then
      (.error (.runtimeError "Failed to bind framebuffer"),
        { st2 with liveFBOs := st2.liveFBOs.filter (fun x => x != fb) },
        tr2 ++ [GLEffect.deleteFramebuffer fb])
    else
      let st3 := { st2 with fboBinding := fb }
      let tr3 := tr2 ++ [GLEffect.framebufferTexture2D tgt b.name]
      let stDone := { st3 with
        fboBinding := savedFB,
        liveFBOs := st3.liveFBOs.filter (fun x => x != fb) }
      if drv.fbComplete = false then
        (.error (.runtimeError "Framebuffer not complete"), stDone,
          tr3 ++ [GLEffect.bindFramebuffer savedFB, GLEffect.deleteFramebuffer fb])
      else
        let tr4 := tr3 ++ [GLEffect.readPixels drv.texWidth drv.texHeight]
        if drv.readPixelsOk = false then
          (.error (.runtimeError "OpenGL error reading pixels"), stDone,
            tr4 ++ [GLEffect.bindFramebuffer savedFB, GLEffect.deleteFramebuffer fb])
        else
          (.ok (padTo n drv.fbContent), stDone,
            tr4 ++ [GLEffect.bindFramebuffer savedFB, GLEffect.deleteFramebuffer fb])

/-- Pixel-acquisition step of `glbuffer_to_pil_image` (lines 789-860): try
`glGetTexImage` directly; on failure fall back to the framebuffer path. -/
def pixelsStage (drv : ToPILDriver) (b : GLBufferModel) (tgt : GLTexTarget) (n : Nat)
    (savedFB : Nat) (st1 : GLState) (tr : List GLEffect) :
    Except PyErr (List Nat) × GLState × List GLEffect :=
  let tr2 := tr ++ [GLEffect.getTexImage tgt]
  if drv.directReadOk then (.ok (padTo n drv.texContent), st1, tr2)
  else fbReadStage drv b tgt n savedFB st1 tr2

/-- Common tail of `glbuffer_to_pil_image` for every path that reaches the
pixel-acquisition step (lines 800-891): restore the texture binding that was
saved at entry (always onto the buffer's texture target), then either
propagate the error or build the PIL image. -/
def postPixels (drv : ToPILDriver) (tgt : GLTexTarget) (savedTex : Nat)
    (r : Except PyErr (List Nat) × GLState × List GLEffect) :
    Except PyErr PILImage × GLState × List GLEffect :=
  match r with
  | (Except.error e, st2, tr2) =>
    (.error e, setTex st2 tgt savedTex, tr2 ++ [GLEffect.bindTexture tgt savedTex])
  | (Except.ok px, st2, tr2) =>
    finishPIL drv px (setTex st2 tgt savedTex) (tr2 ++ [GLEffect.bindTexture tgt savedTex])

def glbuffer_to_pil_image (drv : ToPILDriver) (buf : Option GLBufferModel)
    (st0 : GLState) : Except PyErr PILImage × GLState × List GLEffect :=
  match buf with
  | Option.none => (.error (.runtimeError "Invalid GLBuffer: buffer is null"), st0, [])
  | Option.some b =>
    if b.name = 0 then
      (.error (.runtimeError "Invalid GLBuffer: no OpenGL texture"), st0, [])
    else if drv.contextOk = false then
      (.error (.runtimeError "Failed to make OpenGL context current"), st0,
        [GLEffect.ensureContext])
    else
      -- lines 726-734: the saved texture binding is always read from
      -- GL_TEXTURE_BINDING_2D, whatever the buffer's actual target is
      let savedTex := st0.texBinding GLTexTarget.g2D
      let savedFB := st0.fboBinding
      let tgt := textureTargetFor b.target
      let tr1 := [GLEffect.ensureContext, GLEffect.bindTexture tgt b.name]
      if drv.bindTexOk = false then
        (.error (.runtimeError "Failed to bind texture"), setTex st0 tgt savedTex,
          tr1 ++ [GLEffect.bindTexture tgt savedTex])
      else
        let st1 := setTex st0 tgt b.name
        if drv.isTextureOk = false then
          (.error (.runtimeError "Invalid texture object"), setTex st1 tgt savedTex,
            tr1 ++ [GLEffect.bindTexture tgt savedTex])
        else if drv.texWidth ≤ 0 ∨ drv.texHeight ≤ 0 then
          (.error (.runtimeError "Invalid texture dimensions"), setTex st1 tgt savedTex,
            tr1 ++ [GLEffect.bindTexture tgt savedTex])
        else
          let n := (drv.texWidth * drv.texHeight * 4).toNat
          postPixels drv tgt savedTex (pixelsStage drv b tgt n savedFB st1 tr1)


/-- A buffer the export must reject: a null reference or a backing GL
texture name of 0 (lines 709-718). -/
def invalidBuffer : Option GLBufferModel → Bool
  | Option.none => true
  | Option.some b => b.name == 0

/-! ## Concrete inputs used by witnesses and counterexamples -/

def drvAllOk : RenderDriver :=
  { contextOk := true, hasDoc := true, programReady := true, renderOk := true }

def errMalformedPlain : ISFErr :=
  { type := ISFErrType.MalformedJSON, general := "json parse failed",
    specific := "unexpected token", details := [] }

def errMalformedInvalid : ISFErr :=
  { type := ISFErrType.MalformedJSON, general := "json parse failed",
    specific := "invalid value", details := [] }

def errGLSL : ISFErr :=
  { type := ISFErrType.ErrorCompilingGLSL, general := "shader compile failed",
    specific := "frag", details := [("log", "0:1 syntax error, unexpected IDENTIFIER")] }

def docA : ISFDocModel :=
  { path := "/shaders/a.fs", docName := "A", docDescription := "first", credit := "x",
    fragBody := "gl_FragColor = vec4(1.0);",
    vertBody := "isf_vertShaderInit();",
    inputs := [{ name := "level", type := ISFValType.float, label := "", description := "" }],
    passes := [{ name := "bufferA", persistent := true, floatFlag := false }] }

def docB : ISFDocModel :=
  { path := "/other/b.fs", docName := "B", docDescription := "second", credit := "y",
    fragBody := "gl_FragColor = vec4(1.0);",
    vertBody := "isf_vertShaderInit();",
    inputs := [{ name := "level", type := ISFValType.float, label := "", description := "" }],
    passes := [{ name := "bufferA", persistent := true, floatFlag := false }] }

def drvToPILOk : ToPILDriver :=
  { contextOk := true, bindTexOk := true, isTextureOk := true,
    texWidth := 2, texHeight := 1, directReadOk := true,
    texContent := [10, 20, 30, 40, 50, 60, 70, 80],
    fbName := 9, bindFbOk := true, fbComplete := true, readPixelsOk := true,
    fbContent := [], pilOk := true }

def buf2D : GLBufferModel := { name := 5, target := BufTarget.target2D, flipped := true }

def bufCube : GLBufferModel := { name := 5, target := BufTarget.targetCube, flipped := false }

def stPlain : GLState := { texBinding := fun _ => 0, fboBinding := 0, liveFBOs := [] }

/-- Texture bindings in which the 2D binding (3) differs from the cube-map
binding (7). -/
def cubeBindings : GLTexTarget → Nat
  | GLTexTarget.g2D => 3
  | GLTexTarget.gCube => 7
  | _ => 0

/-- Initial GL state whose 2D texture binding (3) differs from its cube-map
binding (7): exposes that the export saves only the 2D binding. -/
def stCube : GLState :=
  { texBinding := cubeBindings, fboBinding := 2, liveFBOs := [11] }

def imgOk : PILImage :=
  { mode := "RGBA", width := 2, height := 1, data := [10, 20, 30, 40, 50, 60, 70, 80] }

def objStLive : GLObjState :=
  { liveShaders := [5], livePrograms := [5], shaderDeletions := [], programDeletions := [] }

/-! ## Helper lemmas -/

theorem padTo_length (n : Nat) (l : List Nat) : (padTo n l).length = n := by
  simp [padTo]

theorem leadMatch_refl (l : List Char) : leadMatch l l = true := by
  induction l with
  | nil => rfl
  | cons a as ih => simp [leadMatch, ih]

theorem hasSubList_append_self (pre d : List Char) : hasSubList d (pre ++ d) = true := by
  induction pre with
  | nil =>
    cases d with
    | nil => rfl
    | cons c cs => simp [hasSubList, leadMatch_refl]
  | cons x xs ih => simp [hasSubList, ih]

theorem extract_ne_empty (err : ISFErr) : extract_isf_error_details err ≠ "" := by
  unfold extract_isf_error_details
  intro h
  have h2 := congrArg String.data h
  simp [String.data_append] at h2

theorem mem_filter_append_ne (l : List Nat) (fb f : Nat)
    (hf : f ∈ (l ++ [fb]).filter (fun x => x != fb)) : f ∈ l := by
  simp only [List.mem_filter, List.mem_append, List.mem_singleton, bne_iff_ne] at hf
  rcases hf with ⟨h1 | h2, h3⟩
  · exact h1
  · exact absurd h2 h3

theorem setTex_texBinding (st : GLState) (t : GLTexTarget) (v : Nat) (u : GLTexTarget) :
    (setTex st t v).texBinding u = if u = t then v else st.texBinding u := rfl

theorem setTex_fboBinding (st : GLState) (t : GLTexTarget) (v : Nat) :
    (setTex st t v).fboBinding = st.fboBinding := rfl

theorem setTex_liveFBOs (st : GLState) (t : GLTexTarget) (v : Nat) :
    (setTex st t v).liveFBOs = st.liveFBOs := rfl

theorem finishPIL_state (drv : ToPILDriver) (px : List Nat) (st : GLState)
    (tr : List GLEffect) : (finishPIL drv px st tr).2.1 = st := by
  unfold finishPIL
  split_ifs <;> rfl

theorem postPixels_state (drv : ToPILDriver) (tgt : GLTexTarget) (savedTex : Nat)
    (r : Except PyErr (List Nat) × GLState × List GLEffect) :
    (postPixels drv tgt savedTex r).2.1 = setTex r.2.1 tgt savedTex := by
  rcases r with ⟨res, stp, trp⟩
  cases res with
  | error e => rfl
  | ok px => exact finishPIL_state drv px _ _

theorem postPixels_ok (drv : ToPILDriver) (tgt : GLTexTarget) (savedTex : Nat)
    (r : Except PyErr (List Nat) × GLState × List GLEffect) (img : PILImage)
    (st2 : GLState) (tr : List GLEffect)
    (h : postPixels drv tgt savedTex r = (Except.ok img, st2, tr)) :
    ∃ px, r.1 = Except.ok px
      ∧ img = { mode := "RGBA", width := drv.texWidth, height := drv.texHeight,
                data := px } := by
  rcases r with ⟨res, stp, trp⟩
  cases res with
  | error e =>
    injection h with hA hB
    exact Except.noConfusion hA
  | ok px =>
    simp only [postPixels, finishPIL] at h
    split_ifs at h
    · injection h with hA hB
      injection hA with hImg
      exact ⟨px, rfl, hImg.symm⟩
    · injection h with hA hB
      exact Except.noConfusion hA

theorem pixelsStage_ok (drv : ToPILDriver) (b : GLBufferModel) (tgt : GLTexTarget)
    (n : Nat) (savedFB : Nat) (st1 : GLState) (tr : List GLEffect) (px : List Nat)
    (h : (pixelsStage drv b tgt n savedFB st1 tr).1 = Except.ok px) :
    (drv.directReadOk = true → px = padTo n drv.texContent)
      ∧ (drv.directReadOk = false → px = padTo n drv.fbContent) := by
  unfold pixelsStage fbReadStage at h
  split_ifs at h <;> simp_all

theorem pixelsStage_state (drv : ToPILDriver) (b : GLBufferModel) (tgt : GLTexTarget)
    (n : Nat) (savedFB : Nat) (st1 : GLState) (tr : List GLEffect)
    (hFB : savedFB = st1.fboBinding) :
    (pixelsStage drv b tgt n savedFB st1 tr).2.1.texBinding = st1.texBinding
      ∧ (pixelsStage drv b tgt n savedFB st1 tr).2.1.fboBinding = st1.fboBinding
      ∧ ∀ f, f ∈ (pixelsStage drv b tgt n savedFB st1 tr).2.1.liveFBOs
          → f ∈ st1.liveFBOs := by
  unfold pixelsStage fbReadStage
  split_ifs <;>
    refine ⟨rfl, ?_, fun f hf => ?_⟩ <;>
      first
        | rfl
        | exact hFB
        | exact hf
        | exact mem_filter_append_ne _ _ _ hf

/-! ## Claim C1 -/

/-- C1 counterexample: the surfaced kind of a failing Document construction is
NOT determined by the underlying `ISFErr` type alone, and `MalformedJSON` is
not always surfaced as a parse error: two `MalformedJSON` errors that differ
only in their `specific` message text are surfaced with different kinds,
because the wrapper greps the message for "invalid"/"type"/"input". -/
theorem malformed_json_kind_depends_on_message :
    (CreateISFDocRefWith_classifyErr "/" errMalformedPlain).kind = PyErrKind.isfParse
      ∧ (CreateISFDocRefWith_classifyErr "/" errMalformedInvalid).kind
          = PyErrKind.shaderCompilation
      ∧ errMalformedPlain.type = errMalformedInvalid.type
      ∧ PyErrKind.isfParse ≠ PyErrKind.shaderCompilation := by
  refine ⟨by decide, by decide, rfl, by decide⟩

/-- C1 amended: every failing Document construction (from a file path or from
explicit strings) surfaces one of the two distinct tagged kinds
`ISFParseError` / `ShaderCompilationError`, with `ErrorParsingFS` and
`ErrorCompilingGLSL` surfaced as shader-compilation errors and
`MissingResource` and `ErrorLoading` as parse errors by type alone, while a
`MalformedJSON` (or unrecognised) error is surfaced as a parse error only
when the message-content heuristic ("invalid"/"type" in `specific`, "input"
in `general`) does not fire, and as a shader-compilation error otherwise. -/
theorem doc_creation_error_classification (dir path : String) (err : ISFErr) :
    (CreateISFDocRefWith_classifyErr dir err).kind
        = docCreationExpectedKind (invalidInputHeuristic err) err.type
      ∧ (CreateISFDocRef_classifyErr path err).kind
        = docCreationExpectedKind (invalidInputHeuristic err) err.type := by
  obtain ⟨ty, g, s, d⟩ := err
  cases ty <;>
    constructor <;>
      simp only [CreateISFDocRefWith_classifyErr, CreateISFDocRef_classifyErr,
        docCreationExpectedKind] <;>
      first
        | rfl
        | (split <;> rfl)

/-! ## Claim C2 -/

/-- C2 counterexample: a render request of size 16385x16 (one dimension
greater than 16384) is NOT rejected with the invalid-size error: validation
passes and the request is forwarded to rendering (a render effect against
the scene is issued and the call succeeds). -/
theorem oversize_request_not_rejected :
    pyvvisf_create_and_render_a_buffer drvAllOk { width := 16385, height := 16 } 0
      = (Except.ok (),
         [REffect.ensureContext, REffect.render 16385 16 0]) := by
  have h1 : ¬((16385 : Rat) ≤ 0 ∨ (16 : Rat) ≤ 0) := by norm_num
  simp [pyvvisf_create_and_render_a_buffer, drvAllOk, h1]

/-- C2 amended: `create_and_render_a_buffer` validates only that the size is
positive: a call fails with the invalid-size error (`std::invalid_argument`)
exactly when width ≤ 0 or height ≤ 0; there is no maximum-dimension check,
so sizes with a dimension greater than 16384 pass validation and are
forwarded to rendering. -/
theorem size_validation_characterization (drv : RenderDriver) (size : RSize) (t : Rat) :
    (∃ m, (pyvvisf_create_and_render_a_buffer drv size t).1
        = Except.error (PyErr.invalidArgument m))
      ↔ (size.width ≤ 0 ∨ size.height ≤ 0) := by
  unfold pyvvisf_create_and_render_a_buffer
  split_ifs with h1 h2 h3 h4 h5 <;> simp_all

/-! ## Claim C3 -/

/-- C3: for every size with width ≤ 0 or height ≤ 0,
`create_and_render_a_buffer` fails with the invalid-size error and its effect
trace is empty: no context, pool or GPU operation is performed. -/
theorem invalid_size_rejected_before_effects (drv : RenderDriver) (size : RSize)
    (t : Rat) (h : size.width ≤ 0 ∨ size.height ≤ 0) :
    (∃ m, (pyvvisf_create_and_render_a_buffer drv size t).1
        = Except.error (PyErr.invalidArgument m))
      ∧ (pyvvisf_create_and_render_a_buffer drv size t).2 = [] := by
  unfold pyvvisf_create_and_render_a_buffer
  rw [if_pos h]
  exact ⟨⟨_, rfl⟩, rfl⟩

/-- C3 witness: the zero size is rejected with the invalid-size error and an
empty effect trace, even on a fully operational scene. -/
theorem invalid_size_rejected_before_effects_witness :
    (∃ m, (pyvvisf_create_and_render_a_buffer drvAllOk { width := 0, height := 0 } 0).1
        = Except.error (PyErr.invalidArgument m))
      ∧ (pyvvisf_create_and_render_a_buffer drvAllOk { width := 0, height := 0 } 0).2 = [] :=
  invalid_size_rejected_before_effects drvAllOk { width := 0, height := 0 } 0
    (Or.inl le_rfl)

/-! ## Claim C5 -/

/-- C5 counterexample: a failing `set_value_for_input_named` call (here: the
inner library call reports an unknown input) is surfaced as the generic
`ShaderRenderingError` — the very same error kind `use_doc` uses for generic
rendering failures — not as a distinct unknown-input or type-mismatch kind
(no such kinds are registered by the module at all). -/
theorem set_value_failure_surfaces_generic :
    set_value_for_input_named_wrapper "speed" (Except.error "no input named speed")
        = Except.error (PyErr.shaderRendering
            "Failed to set input \x27speed\x27: no input named speed" "")
      ∧ (PyErr.shaderRendering
            "Failed to set input \x27speed\x27: no input named speed" "").kind
        = (ISFScene_useDoc_classifyErr
            { type := ISFErrType.other, general := "boom", specific := "",
              details := [] }).kind := by
  exact ⟨rfl, rfl⟩

/-- C5 amended: every failure of `set_value_for_input_named`, whatever the
underlying cause (unknown input name, type mismatch, anything else the
library reports), is surfaced as the single generic `ShaderRenderingError`
carrying the input name and the inner message; a successful inner call is
surfaced as success.  Callers cannot branch on a distinct unknown-input or
type-mismatch kind. -/
theorem set_value_error_surface (name m : String) :
    set_value_for_input_named_wrapper name (Except.error m)
        = Except.error (PyErr.shaderRendering
            ("Failed to set input \x27" ++ name ++ "\x27: " ++ m) "")
      ∧ (PyErr.shaderRendering
          ("Failed to set input \x27" ++ name ++ "\x27: " ++ m) "").kind
        = PyErrKind.shaderRendering
      ∧ set_value_for_input_named_wrapper name (Except.ok ()) = Except.ok () := by
  exact ⟨rfl, rfl, rfl⟩

/-! ## Claim C8 -/

/-- C8: `generateShaderSource` is deterministic — it is a function of the
Document's shader bodies, Inputs and passes alone, so two calls with no state
change between them (and even on two Documents that agree on those fields but
differ in path/name metadata) yield byte-identical vertex and fragment
sources. -/
theorem generate_shader_source_deterministic (d1 d2 : ISFDocModel)
    (hi : d1.inputs = d2.inputs) (hp : d1.passes = d2.passes)
    (hf : d1.fragBody = d2.fragBody) (hv : d1.vertBody = d2.vertBody) :
    generateShaderSource d1 = generateShaderSource d2 := by
  unfold generateShaderSource
  rw [hi, hp, hf, hv]

/-- C8 witness: two Documents with identical Inputs, passes and shader bodies
but different path/name/description metadata generate byte-identical shader
source. -/
theorem generate_shader_source_deterministic_witness :
    generateShaderSource docA = generateShaderSource docB :=
  generate_shader_source_deterministic docA docB rfl rfl rfl rfl

/-! ## Claim C9 -/

/-- C9: the GPU-handle release helpers check validity before freeing and zero
the handle afterwards, so running a helper twice in succession on the same
handle variable deletes the underlying GL object at most once: the second
run is the identity, at most one deletion is recorded, and after any run the
handle is either zeroed or nothing was freed. -/
theorem safe_delete_no_double_free (h : Nat) (st : GLObjState) :
    safeDeleteShader (safeDeleteShader h st).1 (safeDeleteShader h st).2
        = safeDeleteShader h st
      ∧ (safeDeleteShader h st).2.shaderDeletions.length ≤ st.shaderDeletions.length + 1
      ∧ ((safeDeleteShader h st).1 = 0 ∨ (safeDeleteShader h st).2 = st)
      ∧ safeDeleteProgram (safeDeleteProgram h st).1 (safeDeleteProgram h st).2
        = safeDeleteProgram h st
      ∧ (safeDeleteProgram h st).2.programDeletions.length ≤ st.programDeletions.length + 1
      ∧ ((safeDeleteProgram h st).1 = 0 ∨ (safeDeleteProgram h st).2 = st) := by
  refine ⟨?_, ?_, ?_, ?_, ?_, ?_⟩ <;>
    first
      | (by_cases h1 : h ≠ 0 ∧ glIsShader st h = true <;>
          simp [safeDeleteShader, h1, glDeleteShader])
      | (by_cases h1 : h ≠ 0 ∧ glIsProgram st h = true <;>
          simp [safeDeleteProgram, h1, glDeleteProgram])

/-- C9 witness: deleting live shader/program handle 5 twice frees it exactly
once — the second call changes nothing. -/
theorem safe_delete_no_double_free_witness :
    safeDeleteShader (safeDeleteShader 5 objStLive).1 (safeDeleteShader 5 objStLive).2
        = safeDeleteShader 5 objStLive
      ∧ (safeDeleteShader 5 objStLive).2.shaderDeletions.length
          ≤ objStLive.shaderDeletions.length + 1
      ∧ ((safeDeleteShader 5 objStLive).1 = 0 ∨ (safeDeleteShader 5 objStLive).2 = objStLive)
      ∧ safeDeleteProgram (safeDeleteProgram 5 objStLive).1 (safeDeleteProgram 5 objStLive).2
        = safeDeleteProgram 5 objStLive
      ∧ (safeDeleteProgram 5 objStLive).2.programDeletions.length
          ≤ objStLive.programDeletions.length + 1
      ∧ ((safeDeleteProgram 5 objStLive).1 = 0
          ∨ (safeDeleteProgram 5 objStLive).2 = objStLive) :=
  safe_delete_no_double_free 5 objStLive

/-! ## Claim C4 -/

/-- C4 counterexample: when `use_doc` fails because GLSL compilation fails
(`ISFErrType_ErrorCompilingGLSL` — the compile/link failure case), the
surfaced error's shader-stage tag is the literal "unknown": it does not
identify whether the vertex or the fragment stage failed. -/
theorem glsl_compile_stage_unknown :
    (ISFScene_useDoc_classifyErr errGLSL).shaderStage = some "unknown"
      ∧ (some "unknown" : Option String) ≠ some "vertex"
      ∧ (some "unknown" : Option String) ≠ some "fragment" :=
  ⟨rfl, by decide, by decide⟩

/-- C4 amended: when `use_doc` fails because GLSL compilation fails, the
wrapper surfaces a `ShaderCompilationError` whose details argument is the
full rendered `ISFErr` (type, general, specific and the details dictionary —
where the library records the compiler log) and whose final message contains
that block verbatim as a substring; the shader-stage tag however is
"unknown": the offending stage (vertex vs fragment) is not identified
("fragment" is used only for fragment-parse errors, not for compile/link
failures). -/
theorem useDoc_glsl_error_content (err : ISFErr)
    (h : err.type = ISFErrType.ErrorCompilingGLSL) :
    ISFScene_useDoc_classifyErr err
        = PyErr.shaderCompilation "GLSL compilation error" "unknown"
            (extract_isf_error_details err)
      ∧ hasSubList (extract_isf_error_details err).data
          (ShaderCompilationError_message "GLSL compilation error" "unknown"
            (extract_isf_error_details err)).data = true := by
  constructor
  · unfold ISFScene_useDoc_classifyErr
    rw [h]
  · unfold ShaderCompilationError_message
    rw [if_neg (by decide : ¬("unknown" : String) = "")]
    rw [if_neg (extract_ne_empty err)]
    rw [← String.append_assoc]
    rw [String.data_append]
    exact hasSubList_append_self _ _

/-- C4 witness: a concrete GLSL compilation failure surfaces with stage
"unknown" and a message containing the rendered error block verbatim. -/
theorem useDoc_glsl_error_content_witness :
    ISFScene_useDoc_classifyErr errGLSL
        = PyErr.shaderCompilation "GLSL compilation error" "unknown"
            (extract_isf_error_details errGLSL)
      ∧ hasSubList (extract_isf_error_details errGLSL).data
          (ShaderCompilationError_message "GLSL compilation error" "unknown"
            (extract_isf_error_details errGLSL)).data = true :=
  useDoc_glsl_error_content errGLSL rfl

/-! ## Claim C6 -/

/-- C6: a null buffer, or one whose backing GL texture name is 0, is rejected
by `to_pil_image` with an error before any GL operation: the effect trace is
empty (in particular no bind and no read of the handle) and the GL state is
untouched. -/
theorem to_pil_image_rejects_invalid (drv : ToPILDriver) (buf : Option GLBufferModel)
    (st : GLState) (h : invalidBuffer buf = true) :
    (∃ m, (glbuffer_to_pil_image drv buf st).1 = Except.error (PyErr.runtimeError m))
      ∧ (glbuffer_to_pil_image drv buf st).2.2 = []
      ∧ (glbuffer_to_pil_image drv buf st).2.1 = st := by
  cases buf with
  | none => exact ⟨⟨_, rfl⟩, rfl, rfl⟩
  | some b =>
    have hb : b.name = 0 := by simpa [invalidBuffer] using h
    simp [glbuffer_to_pil_image, hb]

/-- C6 witness: the null buffer is rejected with an error, an empty effect
trace and unchanged GL state. -/
theorem to_pil_image_rejects_invalid_witness :
    (∃ m, (glbuffer_to_pil_image drvToPILOk Option.none stPlain).1
        = Except.error (PyErr.runtimeError m))
      ∧ (glbuffer_to_pil_image drvToPILOk Option.none stPlain).2.2 = []
      ∧ (glbuffer_to_pil_image drvToPILOk Option.none stPlain).2.1 = stPlain :=
  to_pil_image_rejects_invalid drvToPILOk Option.none stPlain rfl

/-! ## Claim C7 -/

/-- C7: every successful `to_pil_image` export hands the image constructor
mode "RGBA", the texture's queried (width, height), and a flat byte array of
exactly width*height*4 bytes (4 bytes per pixel, R,G,B,A) that is the
readback data unmodified — rows stay in the texture's own order, which is
exactly what the buffer's `flipped` flag describes to the caller (the export
itself never reorders rows). -/
theorem to_pil_image_rgba_output (drv : ToPILDriver) (buf : Option GLBufferModel)
    (st st2 : GLState) (img : PILImage) (tr : List GLEffect)
    (h : glbuffer_to_pil_image drv buf st = (Except.ok img, st2, tr)) :
    img.mode = "RGBA" ∧ img.width = drv.texWidth ∧ img.height = drv.texHeight
      ∧ img.data.length = (drv.texWidth * drv.texHeight * 4).toNat
      ∧ (drv.directReadOk = true →
          img.data = padTo (drv.texWidth * drv.texHeight * 4).toNat drv.texContent)
      ∧ (drv.directReadOk = false →
          img.data = padTo (drv.texWidth * drv.texHeight * 4).toNat drv.fbContent) := by
  cases buf with
  | none => exact absurd h (by simp [glbuffer_to_pil_image])
  | some b =>
    simp only [glbuffer_to_pil_image] at h
    split_ifs at h
    case _ | _ | _ | _ | _ =>
      injection h with hA hB
      exact Except.noConfusion hA
    case _ =>
      obtain ⟨px, hr, himg⟩ := postPixels_ok _ _ _ _ _ _ _ h
      have hpx := pixelsStage_ok _ _ _ _ _ _ _ _ hr
      have hlen : px.length = (drv.texWidth * drv.texHeight * 4).toNat := by
        cases hdr : drv.directReadOk with
        | true => rw [hpx.1 hdr]; exact padTo_length _ _
        | false => rw [hpx.2 hdr]; exact padTo_length _ _
      subst himg
      exact ⟨rfl, rfl, rfl, hlen, fun hd => hpx.1 hd, fun hd => hpx.2 hd⟩

/-- C7 witness: a successful 2x1 export yields an RGBA image of size (2, 1)
whose byte array is the 8 readback bytes unchanged. -/
theorem to_pil_image_rgba_output_witness :
    imgOk.mode = "RGBA" ∧ imgOk.width = drvToPILOk.texWidth
      ∧ imgOk.height = drvToPILOk.texHeight
      ∧ imgOk.data.length = (drvToPILOk.texWidth * drvToPILOk.texHeight * 4).toNat
      ∧ (drvToPILOk.directReadOk = true →
          imgOk.data = padTo (drvToPILOk.texWidth * drvToPILOk.texHeight * 4).toNat
            drvToPILOk.texContent)
      ∧ (drvToPILOk.directReadOk = false →
          imgOk.data = padTo (drvToPILOk.texWidth * drvToPILOk.texHeight * 4).toNat
            drvToPILOk.fbContent) :=
  to_pil_image_rgba_output drvToPILOk (Option.some buf2D) stPlain
    (glbuffer_to_pil_image drvToPILOk (Option.some buf2D) stPlain).2.1
    imgOk
    (glbuffer_to_pil_image drvToPILOk (Option.some buf2D) stPlain).2.2
    rfl

/-! ## Claim C10 -/

/-- C10 counterexample: for a cube-map buffer, `to_pil_image` does NOT
restore the caller's texture binding, even on its successful exit path: the
code saves only GL_TEXTURE_BINDING_2D (here 3) but on exit rebinds that
value to the buffer's own target, so the cube-map binding that was 7 before
the call is 3 after it — the caller's GL binding state is changed. -/
theorem cube_binding_not_restored :
    stCube.texBinding GLTexTarget.gCube = 7
      ∧ (glbuffer_to_pil_image drvToPILOk (Option.some bufCube) stCube).1
          = Except.ok imgOk
      ∧ (glbuffer_to_pil_image drvToPILOk (Option.some bufCube) stCube).2.1.texBinding
          GLTexTarget.gCube = 3 :=
  ⟨rfl, rfl, rfl⟩

/-- C10 amended: on every exit path of `to_pil_image` the framebuffer
binding that was current before the call is restored and any framebuffer the
operation created is deleted (never left live); the texture-binding
save/restore however saves the 2D binding and rebinds it to the buffer's
texture target on exit, so the caller's texture bindings are all restored
when the buffer's target is 2D (for rectangle/cube targets the prior binding
of that target is not restored, as the counterexample shows). -/
theorem to_pil_image_state_restore (drv : ToPILDriver) (st : GLState)
    (buf : Option GLBufferModel) :
    ((glbuffer_to_pil_image drv buf st).2.1.fboBinding = st.fboBinding
      ∧ ∀ f, f ∈ (glbuffer_to_pil_image drv buf st).2.1.liveFBOs → f ∈ st.liveFBOs)
    ∧ ∀ b, buf = Option.some b → b.target = BufTarget.target2D →
        ∀ t, (glbuffer_to_pil_image drv buf st).2.1.texBinding t = st.texBinding t := by
  cases buf with
  | none =>
    refine ⟨⟨rfl, fun f hf => hf⟩, ?_⟩
    intro b hb
    exact absurd hb (by simp)
  | some b =>
    suffices hmain :
        (glbuffer_to_pil_image drv (Option.some b) st).2.1.fboBinding = st.fboBinding
          ∧ (∀ f, f ∈ (glbuffer_to_pil_image drv (Option.some b) st).2.1.liveFBOs
              → f ∈ st.liveFBOs)
          ∧ (b.target = BufTarget.target2D →
              ∀ t, (glbuffer_to_pil_image drv (Option.some b) st).2.1.texBinding t
                = st.texBinding t) by
      refine ⟨⟨hmain.1, hmain.2.1⟩, fun b2 hb2 h2d => ?_⟩
      cases hb2
      exact hmain.2.2 h2d
    have hps := pixelsStage_state drv b (textureTargetFor b.target)
      ((drv.texWidth * drv.texHeight * 4).toNat) st.fboBinding
      (setTex st (textureTargetFor b.target) b.name)
      [GLEffect.ensureContext, GLEffect.bindTexture (textureTargetFor b.target) b.name]
      rfl
    simp only [glbuffer_to_pil_image]
    split_ifs
    case _ | _ =>
      exact ⟨rfl, fun f hf => hf, fun _ _ => rfl⟩
    case _ =>
      refine ⟨rfl, fun f hf => hf, fun h2d t => ?_⟩
      rw [setTex_texBinding, h2d]
      by_cases ht : t = GLTexTarget.g2D <;> simp [textureTargetFor, ht]
    case _ | _ =>
      refine ⟨rfl, fun f hf => hf, fun h2d t => ?_⟩
      rw [setTex_texBinding, setTex_texBinding, h2d]
      by_cases ht : t = GLTexTarget.g2D <;> simp [textureTargetFor, ht]
    case _ =>
      refine ⟨?_, fun f hf => ?_, fun h2d t => ?_⟩
      · rw [postPixels_state, setTex_fboBinding]
        exact hps.2.1
      · rw [postPixels_state, setTex_liveFBOs] at hf
        exact hps.2.2 f hf
      · rw [postPixels_state, setTex_texBinding, hps.1, setTex_texBinding, h2d]
        by_cases ht : t = GLTexTarget.g2D <;> simp [textureTargetFor, ht]

/-- C10 witness: for a 2D-target buffer the operation leaves the framebuffer
binding, the live-framebuffer set and every texture binding exactly as they
were. -/
theorem to_pil_image_state_restore_witness :
    ((glbuffer_to_pil_image drvToPILOk (Option.some buf2D) stPlain).2.1.fboBinding
        = stPlain.fboBinding
      ∧ ∀ f, f ∈ (glbuffer_to_pil_image drvToPILOk (Option.some buf2D) stPlain).2.1.liveFBOs
          → f ∈ stPlain.liveFBOs)
    ∧ ∀ t, (glbuffer_to_pil_image drvToPILOk (Option.some buf2D) stPlain).2.1.texBinding t
        = stPlain.texBinding t :=
  ⟨(to_pil_image_state_restore drvToPILOk stPlain (Option.some buf2D)).1,
   fun t => (to_pil_image_state_restore drvToPILOk stPlain (Option.some buf2D)).2
     buf2D rfl rfl t⟩
